import Mathlib

/-
  Verification development for the BtPiFi BLE GATT peripheral
  (src/BtPiFi/service/ble_svc.py and src/BtPiFi/service/ble_service.py).

  The Python classes are embedded shallowly: each D-Bus method becomes a pure
  Lean function over an explicit state record; a raised DBusError becomes an
  error value; `print`/log output, where a claim concerns it, becomes an
  explicit list of strings; emitted PropertiesChanged signals become an
  explicit list of events.  Byte strings are `List Nat` (each entry < 256 in
  intended use); decoded text is a `List Nat` of Unicode code points.
-/

namespace BtPiFi

/-- A dbus_next / pydbus `DBusError`: an error type string plus message text. -/
structure DBusError where
  type : String
  text : String
deriving DecidableEq, Repr

/-- An observable PropertiesChanged emission from a characteristic:
either the `Notifying` property changed, or the `Value` property changed. -/
inductive BleEvent where
  | notifyingChanged (value : Bool)
  | valueChanged (value : List Nat)
deriving DecidableEq, Repr

/-- Python exceptions that the modelled method bodies can raise and that the
surrounding `try/except` clauses dispatch on.  `dbusError` corresponds to a
`dbus_next.DBusError` (which subclasses `Exception`). -/
inductive PyError where
  | unicodeDecodeError
  | dbusError (type : String) (text : String)
deriving DecidableEq, Repr

/-- True for a UTF-8 continuation byte (0x80..0xBF). -/
def isCont (b : Nat) : Bool := 0x80 ≤ b && b ≤ 0xBF

/-- Strict UTF-8 decoding of a byte sequence into Unicode code points,
as performed by Python's `bytes.decode("utf-8")`: rejects stray or missing
continuation bytes, overlong encodings, surrogate code points and code
points above U+10FFFF.  Returns `none` exactly when Python raises
`UnicodeDecodeError`. -/
def utf8Decode : List Nat → Option (List Nat)
  | [] => some []
  | b0 :: rest =>
    if b0 ≤ 0x7F then
      (utf8Decode rest).map (fun cs => b0 :: cs)
    else if 0xC2 ≤ b0 && b0 ≤ 0xDF then
      match rest with
      | b1 :: rest1 =>
        if isCont b1 then
          (utf8Decode rest1).map (fun cs => ((b0 - 0xC0) * 0x40 + (b1 - 0x80)) :: cs)
        else none
      | [] => none
    else if 0xE0 ≤ b0 && b0 ≤ 0xEF then
      match rest with
      | b1 :: b2 :: rest2 =>
        let lo1 := if b0 = 0xE0 then 0xA0 else 0x80
        let hi1 := if b0 = 0xED then 0x9F else 0xBF
        if lo1 ≤ b1 && b1 ≤ hi1 && isCont b2 then
          (utf8Decode rest2).map
            (fun cs => ((b0 - 0xE0) * 0x1000 + (b1 - 0x80) * 0x40 + (b2 - 0x80)) :: cs)
        else none
      | _ => none
    else if 0xF0 ≤ b0 && b0 ≤ 0xF4 then
      match rest with
      | b1 :: b2 :: b3 :: rest3 =>
        let lo1 := if b0 = 0xF0 then 0x90 else 0x80
        let hi1 := if b0 = 0xF4 then 0x8F else 0xBF
        if lo1 ≤ b1 && b1 ≤ hi1 && isCont b2 && isCont b3 then
          (utf8Decode rest3).map
            (fun cs => ((b0 - 0xF0) * 0x40000 + (b1 - 0x80) * 0x1000
                        + (b2 - 0x80) * 0x40 + (b3 - 0x80)) :: cs)
        else none
      | _ => none
    else none

/-
  ============================================================
  ble_svc.py : class BleCharacteristic (base class, default handlers)
  ============================================================
-/

/-- State of a `BleCharacteristic` from ble_svc.py: its declared `flags`
list, its `_value` byte buffer, and the `_notifying` flag.  The `offset`
argument of ReadValue/WriteValue stands for the value of the `offset`
entry of the D-Bus `options` dictionary (default 0). -/
structure BleCharacteristic where
  flags : List String
  value : List Nat
  notifying : Bool
deriving DecidableEq, Repr

namespace BleCharacteristic

/-- ble_svc.py lines 266-271, `BleCharacteristic.ReadValue`:
reject with NotPermitted when `read` is absent from the flags, otherwise
return `self._value[offset:]` (Python slicing: empty past the end). -/
def ReadValue (c : BleCharacteristic) (offset : Nat) : Except DBusError (List Nat) :=
  if "read" ∈ c.flags then Except.ok (c.value.drop offset)
  else Except.error ⟨"org.bluez.Error.NotPermitted", "Read not permitted"⟩

/-- The splice performed by `BleCharacteristic.WriteValue` (ble_svc.py
lines 278-284): zero-extend `old` up to `offset` if needed, place the new
bytes at `[offset, offset+len)`, then trim to `offset+len`. -/
def spliceValue (old : List Nat) (offset : Nat) (v : List Nat) : List Nat :=
  (old ++ List.replicate (offset - old.length) 0).take offset ++ v

/-- ble_svc.py lines 273-285, `BleCharacteristic.WriteValue`:
reject with NotPermitted unless `write` or `write-without-response` is in
the flags, otherwise splice the payload into the value at `offset`. -/
def WriteValue (c : BleCharacteristic) (v : List Nat) (offset : Nat) :
    Except DBusError BleCharacteristic :=
  if "write" ∈ c.flags ∨ "write-without-response" ∈ c.flags then
    Except.ok { c with value := spliceValue c.value offset v }
  else Except.error ⟨"org.bluez.Error.NotPermitted", "Write not permitted"⟩

/-- ble_svc.py lines 287-296, `BleCharacteristic.StartNotify`:
NotSupported when `notify` is absent from the flags; a plain return when
already notifying; otherwise set `_notifying`.  This variant only prints --
it emits no PropertiesChanged signal, hence the event list is always empty. -/
def StartNotify (c : BleCharacteristic) :
    Except DBusError (BleCharacteristic × List BleEvent) :=
  if "notify" ∈ c.flags then
    if c.notifying then Except.ok (c, [])
    else Except.ok ({ c with notifying := true }, [])
  else Except.error ⟨"org.bluez.Error.NotSupported", "Notify not supported"⟩

end BleCharacteristic

/-- State of a `BleDescriptor` from ble_svc.py (flags and `_value`). -/
structure BleDescriptor where
  flags : List String
  value : List Nat
deriving DecidableEq, Repr

namespace BleDescriptor

/-- ble_svc.py lines 327-332, `BleDescriptor.ReadValue`: same contract as
the characteristic's default ReadValue. -/
def ReadValue (d : BleDescriptor) (offset : Nat) : Except DBusError (List Nat) :=
  if "read" ∈ d.flags then Except.ok (d.value.drop offset)
  else Except.error ⟨"org.bluez.Error.NotPermitted", "Read not permitted"⟩

end BleDescriptor

/-
  ============================================================
  ble_svc.py : service-level credential store and the Set-SSID /
  Set-PSK write-only characteristics
  ============================================================
-/

/-- The credential fields `_target_ssid` / `_target_psk` stored on the
`BleService` instance (ble_svc.py lines 225-226), as decoded code-point
strings (`None` initially). -/
structure BleService where
  targetSsid : Option (List Nat)
  targetPsk : Option (List Nat)
deriving DecidableEq, Repr

namespace SetSsidCharacteristicImpl

/-- The `try` body of `SetSsidCharacteristicImpl.WriteValue` (ble_svc.py
lines 418-428): decode the payload as UTF-8 (raising UnicodeDecodeError on
failure), raise an InvalidValueLength DBusError when the payload exceeds 32
bytes, otherwise store the decoded SSID on the service object.  Returns the
(possibly mutated) service state together with the raised exception, if any. -/
def writeBody (svc : BleService) (value : List Nat) : BleService × Option PyError :=
  match utf8Decode value with
  | none => (svc, some PyError.unicodeDecodeError)
  | some ssid =>
    if value.length > 32 then
      (svc, some (PyError.dbusError "org.bluez.Error.InvalidValueLength"
                    "SSID too long (max 32 bytes)"))
    else ({ svc with targetSsid := some ssid }, none)

/-- ble_svc.py lines 415-434, `SetSsidCharacteristicImpl.WriteValue` with its
`except` clauses: a UnicodeDecodeError becomes an InvalidValueLength error;
any other exception -- including the DBusError deliberately raised inside the
body, since `DBusError` subclasses `Exception` -- is caught by the trailing
`except Exception` clause and re-raised as `org.bluez.Error.Failed` with the
original message interpolated. -/
def WriteValue (svc : BleService) (value : List Nat) : BleService × Option DBusError :=
  match writeBody svc value with
  | (s, none) => (s, none)
  | (s, some PyError.unicodeDecodeError) =>
    (s, some ⟨"org.bluez.Error.InvalidValueLength", "Invalid UTF-8 for SSID"⟩)
  | (s, some (PyError.dbusError _ text)) =>
    (s, some ⟨"org.bluez.Error.Failed", "Failed to process SSID: " ++ text⟩)

end SetSsidCharacteristicImpl

/-- True when the code point is one of `0123456789abcdefABCDEF`
(the hex-digit test of ble_svc.py line 458). -/
def isHexCp (c : Nat) : Bool :=
  (0x30 ≤ c && c ≤ 0x39) || (0x61 ≤ c && c ≤ 0x66) || (0x41 ≤ c && c ≤ 0x46)

namespace SetPskCharacteristicImpl

/-- The D-Bus object path of the Set-PSK characteristic (ble_svc.py line 23),
as interpolated into the method's first print statement. -/
def pskPath : String := "/com/automationwise/btpifi/service0/char3"

/-- The first print line of `SetPskCharacteristicImpl.WriteValue`. -/
def headerLine : String :=
  ">>> SetPskCharacteristicImpl.WriteValue called for " ++ pskPath

/-- The print line of the invalid-length branch (carries only the length). -/
def invalidLenLine (n : Nat) : String :=
  "    Error: Received PSK has invalid length (" ++ toString n
    ++ "). Must be 0, 8-63 chars, or 64 hex."

/-- The print line of the success branch (carries only the length, never
the PSK itself -- the source comments "Avoid printing actual PSK"). -/
def receivedLine (n : Nat) : String :=
  "    Received target PSK (length=" ++ toString n ++ ")"

/-- The `try` body of `SetPskCharacteristicImpl.WriteValue` (ble_svc.py lines
452-466), together with the print output it produces: decode the payload,
compute `psk_len` (decoded character count), `psk_byte_len` (raw byte count)
and `is_hex`; raise an InvalidValueLength DBusError when the length rule is
violated; otherwise store the PSK on the service object.  Only the PSK's
length is ever printed, never its content. -/
def writeBody (svc : BleService) (value : List Nat) :
    (BleService × Option PyError) × List String :=
  match utf8Decode value with
  | none => ((svc, some PyError.unicodeDecodeError), [headerLine])
  | some psk =>
    let pskLen := psk.length
    let pskByteLen := value.length
    let isHex := pskLen == 64 && psk.all isHexCp
    if pskByteLen > 0 && !isHex && (pskLen < 8 || pskLen > 63) then
      ((svc, some (PyError.dbusError "org.bluez.Error.InvalidValueLength"
                     "Invalid PSK length")),
       [headerLine, invalidLenLine pskLen])
    else
      (({ svc with targetPsk := some psk }, none),
       [headerLine, receivedLine pskLen])

/-- ble_svc.py lines 450-472, `SetPskCharacteristicImpl.WriteValue` with its
`except` clauses and their print output: a UnicodeDecodeError becomes an
InvalidValueLength error; any other exception (including the deliberately
raised DBusError) is caught by `except Exception` and re-raised as
`org.bluez.Error.Failed`. -/
def WriteValue (svc : BleService) (value : List Nat) :
    (BleService × Option DBusError) × List String :=
  match writeBody svc value with
  | ((s, none), log) => ((s, none), log)
  | ((s, some PyError.unicodeDecodeError), log) =>
    ((s, some ⟨"org.bluez.Error.InvalidValueLength", "Invalid UTF-8 for PSK"⟩),
     log ++ ["    Error: Received invalid UTF-8 data for PSK."])
  | ((s, some (PyError.dbusError _ text)), log) =>
    ((s, some ⟨"org.bluez.Error.Failed", "Failed to process PSK: " ++ text⟩),
     log ++ ["    Error processing PSK write: " ++ text])

/-- ble_svc.py lines 474-477, `SetPskCharacteristicImpl.ReadValue`:
unconditionally rejects with NotPermitted. -/
def ReadValue (_svc : BleService) (_offset : Nat) : Except DBusError (List Nat) :=
  Except.error ⟨"org.bluez.Error.NotPermitted",
    "Read not permitted on write-only characteristic"⟩

end SetPskCharacteristicImpl

/-
  ============================================================
  ble_svc.py : class Application (org.freedesktop.DBus.ObjectManager)
  ============================================================
-/

/-- The property-descriptive data of a GATT object instance held in the
Application's registry, tagged by its Python class (`BleService`,
`BleCharacteristic` or `BleDescriptor`) -- exactly the three kinds
registered by `main()` via `add_gatt_object`. -/
inductive GattInstance where
  | service (uuid : String) (primary : Bool) (characteristicPaths : List String)
  | characteristic (uuid : String) (flags : List String) (servicePath : String)
      (descriptorPaths : List String)
  | descriptor (uuid : String) (flags : List String) (characteristicPath : String)
deriving DecidableEq, Repr

/-- A `dbus_next.Variant` payload as built by
`Application._get_gatt_object_properties` (signatures s, b, as, o, ao). -/
inductive DBusValue where
  | vStr (v : String)
  | vBool (v : Bool)
  | vStrs (v : List String)
  | vPath (v : String)
  | vPaths (v : List String)
deriving DecidableEq, Repr

/-- ble_svc.py lines 190-195: the interface name reported for an instance,
chosen by `isinstance` checks. -/
def ifaceName : GattInstance → String
  | GattInstance.service _ _ _ => "org.bluez.GattService1"
  | GattInstance.characteristic _ _ _ _ => "org.bluez.GattCharacteristic1"
  | GattInstance.descriptor _ _ _ => "org.bluez.GattDescriptor1"

/-- ble_svc.py lines 160-178, `Application._get_gatt_object_properties`:
the property map reported for an instance, in the insertion order of the
source. -/
def gattObjectProperties : GattInstance → List (String × DBusValue)
  | GattInstance.service uuid primary chars =>
    [("UUID", DBusValue.vStr uuid), ("Primary", DBusValue.vBool primary),
     ("Characteristics", DBusValue.vPaths chars)]
  | GattInstance.characteristic uuid flags svcPath descs =>
    [("UUID", DBusValue.vStr uuid), ("Flags", DBusValue.vStrs flags),
     ("Service", DBusValue.vPath svcPath), ("Descriptors", DBusValue.vPaths descs)]
  | GattInstance.descriptor uuid flags charPath =>
    [("UUID", DBusValue.vStr uuid), ("Flags", DBusValue.vStrs flags),
     ("Characteristic", DBusValue.vPath charPath)]

/-- The Application's `managed_gatt_objects` dictionary: path → instance,
in insertion order (Python dicts preserve insertion order). -/
structure Application where
  managed_gatt_objects : List (String × GattInstance)
deriving DecidableEq, Repr

namespace Application

/-- Replace the binding for `path` in an insertion-ordered dictionary, or
append it when absent (Python `dict.__setitem__` semantics). -/
def dictInsert (d : List (String × GattInstance)) (path : String) (inst : GattInstance) :
    List (String × GattInstance) :=
  match d with
  | [] => [(path, inst)]
  | (p, i) :: rest =>
    if p = path then (p, inst) :: rest
    else (p, i) :: dictInsert rest path inst

/-- ble_svc.py lines 149-152, `Application.add_gatt_object`:
`self.managed_gatt_objects[path] = instance`. -/
def add_gatt_object (app : Application) (path : String) (inst : GattInstance) :
    Application :=
  ⟨dictInsert app.managed_gatt_objects path inst⟩

/-- ble_svc.py lines 180-213, `Application.GetManagedObjects`: for every
managed object, report `{ path: { interface: properties } }`.  The source's
skip branch for non-GATT instances is unreachable here since the registry
type only holds the three GATT kinds, and the properties of each kind are
never empty, so the `if iface_name and gatt_props` guard always passes.
Returned as the unchanged object state together with the reply, reflecting
that the method does not mutate the registry. -/
def GetManagedObjects (app : Application) :
    Application × List (String × String × List (String × DBusValue)) :=
  (app, app.managed_gatt_objects.map
    (fun pi => (pi.1, ifaceName pi.2, gattObjectProperties pi.2)))

end Application

/-
  ============================================================
  ble_service.py : class WifiStatusCharacteristic (read/notify)
  ============================================================
-/

/-- Mutable state of a `WifiStatusCharacteristic` (ble_service.py lines
291-297): the `_value` byte buffer and the `_notifying` flag.  The `_flags`
attribute is fixed by the constructor and never mutated, so it is modelled
as the constant `WifiStatusCharacteristic.charFlags`. -/
structure WifiStatusCharacteristic where
  value : List Nat
  notifying : Bool
deriving DecidableEq, Repr

namespace WifiStatusCharacteristic

/-- ble_service.py line 293: `self._flags = ['read', 'notify']`. -/
def charFlags : List String := ["read", "notify"]

/-- ble_service.py lines 305-312, `WifiStatusCharacteristic.StartNotify`:
a plain return (only a log line) when already notifying; otherwise set
`_notifying = True` and emit a PropertiesChanged signal for the `Notifying`
property.  Note that this variant performs no flags check. -/
def StartNotify (c : WifiStatusCharacteristic) :
    WifiStatusCharacteristic × List BleEvent :=
  if c.notifying then (c, [])
  else ({ c with notifying := true }, [BleEvent.notifyingChanged true])

/-- ble_service.py lines 315-322, `WifiStatusCharacteristic.StopNotify`:
symmetric to StartNotify. -/
def StopNotify (c : WifiStatusCharacteristic) :
    WifiStatusCharacteristic × List BleEvent :=
  if c.notifying then ({ c with notifying := false }, [BleEvent.notifyingChanged false])
  else (c, [])

/-- ble_service.py lines 354-359, `WifiStatusCharacteristic.update_value`:
store the new bytes and return True when they differ from the current value,
else return False leaving the value alone. -/
def update_value (c : WifiStatusCharacteristic) (v : List Nat) :
    WifiStatusCharacteristic × Bool :=
  if v ≠ c.value then ({ c with value := v }, true) else (c, false)

/-- ble_service.py lines 361-384, `WifiStatusCharacteristic.send_notification`:
return False and emit nothing when `_notifying` is False; otherwise emit a
PropertiesChanged signal carrying the current `Value` and return True.  The
emission sits in a `try/except` block: a transport failure during the emission
(modelled by `transportOk = false`, with no event delivered) is caught, logged
and turned into a False return -- `_value` and `_notifying` are untouched on
every path. -/
def send_notification (c : WifiStatusCharacteristic) (transportOk : Bool) :
    WifiStatusCharacteristic × Bool × List BleEvent :=
  if c.notifying then
    if transportOk then (c, true, [BleEvent.valueChanged c.value])
    else (c, false, [])
  else (c, false, [])

end WifiStatusCharacteristic

/-
  ============================================================
  ble_service.py : class WifiCommandCharacteristic (write-only)
  ============================================================
-/

/-- The module-level globals of ble_service.py that command handling reads
and writes: `current_status` and `scanned_ssids_json` (both byte strings). -/
structure GlobalState where
  current_status : List Nat
  scanned_ssids_json : List Nat
deriving DecidableEq, Repr

/-- True for the code points Python's `str.strip()` removes
(space, tab, LF, VT, FF, CR). -/
def isStripWs (c : Nat) : Bool :=
  c = 0x20 || c = 0x9 || c = 0xA || c = 0xB || c = 0xC || c = 0xD

/-- Python `str.strip()` on a code-point string: drop leading and trailing
whitespace. -/
def stripWs (l : List Nat) : List Nat :=
  ((l.dropWhile isStripWs).reverse.dropWhile isStripWs).reverse

namespace WifiCommandCharacteristic

/-- ble_service.py lines 173-182, `WifiCommandCharacteristic.WriteValue`:
decode the payload as UTF-8 and strip it; on success schedule
`handle_command` on the GLib main loop via `idle_add` (modelled as the list
of pending commands returned); any exception (in particular a decode
failure) is caught by the method's `except Exception` clause and only
logged -- the method returns normally either way and touches no global
state itself. -/
def WriteValue (st : GlobalState) (value : List Nat) :
    GlobalState × Except DBusError Unit × List (List Nat) :=
  match utf8Decode value with
  | some cmd => (st, Except.ok (), [stripWs cmd])
  | none => (st, Except.ok (), [])

end WifiCommandCharacteristic

end BtPiFi

open BtPiFi

/-
  ============================================================
  Theorems for the claims
  ============================================================
-/

/-- C1: for every characteristic (default handlers of ble_svc.py's
`BleCharacteristic`) and every incoming request, ReadValue succeeds iff
`read` is among the flags and WriteValue succeeds iff `write` or
`write-without-response` is among the flags; each failing case is a
synchronous NotPermitted (permission) rejection. -/
theorem C1_read_write_permission_gating :
    (∀ (c : BleCharacteristic) (off : Nat),
        ((∃ r, BleCharacteristic.ReadValue c off = Except.ok r) ↔ "read" ∈ c.flags)
      ∧ ("read" ∉ c.flags →
          BleCharacteristic.ReadValue c off =
            Except.error ⟨"org.bluez.Error.NotPermitted", "Read not permitted"⟩))
  ∧ (∀ (c : BleCharacteristic) (v : List Nat) (off : Nat),
        ((∃ c2, BleCharacteristic.WriteValue c v off = Except.ok c2) ↔
          ("write" ∈ c.flags ∨ "write-without-response" ∈ c.flags))
      ∧ (¬("write" ∈ c.flags ∨ "write-without-response" ∈ c.flags) →
          BleCharacteristic.WriteValue c v off =
            Except.error ⟨"org.bluez.Error.NotPermitted", "Write not permitted"⟩)) := by
  constructor
  · intro c off
    by_cases h : "read" ∈ c.flags <;>
      simp [BleCharacteristic.ReadValue, h]
  · intro c v off
    by_cases h : "write" ∈ c.flags ∨ "write-without-response" ∈ c.flags <;>
      simp [BleCharacteristic.WriteValue, h]

/-- C1 witness: the permission rejections at concrete characteristics. -/
theorem C1_read_write_permission_gating_witness :
    BleCharacteristic.ReadValue ⟨["write"], [1, 2], false⟩ 0 =
      Except.error ⟨"org.bluez.Error.NotPermitted", "Read not permitted"⟩
  ∧ BleCharacteristic.WriteValue ⟨["read"], [1, 2], false⟩ [3] 0 =
      Except.error ⟨"org.bluez.Error.NotPermitted", "Write not permitted"⟩ :=
  ⟨(C1_read_write_permission_gating.1 ⟨["write"], [1, 2], false⟩ 0).2 (by decide),
   (C1_read_write_permission_gating.2 ⟨["read"], [1, 2], false⟩ [3] 0).2 (by decide)⟩

/-- C2: GetManagedObjects reports every registered object exactly once,
keyed by its path, with the interface name derived from the object's kind
and the object's full property map as the value; the call does not mutate
the registry, so two consecutive calls with no intervening mutation return
identical results. -/
theorem C2_get_managed_objects_complete_and_stable :
    ∀ app : Application,
      (Application.GetManagedObjects app).1 = app
    ∧ (Application.GetManagedObjects app).2 =
        app.managed_gatt_objects.map
          (fun pi => (pi.1, ifaceName pi.2, gattObjectProperties pi.2))
    ∧ ((app.managed_gatt_objects.map Prod.fst).Nodup →
        ((Application.GetManagedObjects app).2.map Prod.fst).Nodup)
    ∧ Application.GetManagedObjects (Application.GetManagedObjects app).1 =
        Application.GetManagedObjects app := by
  intro app
  refine ⟨rfl, rfl, ?_, rfl⟩
  intro h
  simpa [Application.GetManagedObjects, List.map_map, Function.comp_def] using h

/-- The Application registry exactly as `main()` of ble_svc.py builds it:
the service, its four characteristics and their four user-description
descriptors, in registration order. -/
def mainRegistryApp : Application :=
  ⟨[("/com/automationwise/btpifi/service0",
     GattInstance.service "133934e0-01f5-4054-a88f-0136e064c49e" true
       ["/com/automationwise/btpifi/service0/char0",
        "/com/automationwise/btpifi/service0/char1",
        "/com/automationwise/btpifi/service0/char2",
        "/com/automationwise/btpifi/service0/char3"]),
    ("/com/automationwise/btpifi/service0/char0",
     GattInstance.characteristic "133934e1-01f5-4054-a88f-0136e064c49e"
       ["read", "write"] "/com/automationwise/btpifi/service0"
       ["/com/automationwise/btpifi/service0/char0/desc0"]),
    ("/com/automationwise/btpifi/service0/char1",
     GattInstance.characteristic "133934e2-01f5-4054-a88f-0136e064c49e"
       ["read"] "/com/automationwise/btpifi/service0"
       ["/com/automationwise/btpifi/service0/char1/desc0"]),
    ("/com/automationwise/btpifi/service0/char2",
     GattInstance.characteristic "133934e3-01f5-4054-a88f-0136e064c49e"
       ["write"] "/com/automationwise/btpifi/service0"
       ["/com/automationwise/btpifi/service0/char2/desc0"]),
    ("/com/automationwise/btpifi/service0/char3",
     GattInstance.characteristic "133934e4-01f5-4054-a88f-0136e064c49e"
       ["write"] "/com/automationwise/btpifi/service0"
       ["/com/automationwise/btpifi/service0/char3/desc0"]),
    ("/com/automationwise/btpifi/service0/char0/desc0",
     GattInstance.descriptor "2901" ["read"] "/com/automationwise/btpifi/service0/char0"),
    ("/com/automationwise/btpifi/service0/char1/desc0",
     GattInstance.descriptor "2901" ["read"] "/com/automationwise/btpifi/service0/char1"),
    ("/com/automationwise/btpifi/service0/char2/desc0",
     GattInstance.descriptor "2901" ["read"] "/com/automationwise/btpifi/service0/char2"),
    ("/com/automationwise/btpifi/service0/char3/desc0",
     GattInstance.descriptor "2901" ["read"] "/com/automationwise/btpifi/service0/char3")]⟩

/-- C2 witness: on the registry that `main()` actually builds, the paths are
distinct and the reply therefore lists each exactly once. -/
theorem C2_get_managed_objects_witness :
    (mainRegistryApp.managed_gatt_objects.map Prod.fst).Nodup
  ∧ ((Application.GetManagedObjects mainRegistryApp).2.map Prod.fst).Nodup :=
  ⟨by decide,
   (C2_get_managed_objects_complete_and_stable mainRegistryApp).2.2.1 (by decide)⟩

/-- C4 counterexample: with `read` permitted and offset 5 past the end of the
two-byte value, ReadValue succeeds with the empty byte string on both the
characteristic and the descriptor, instead of failing with an
InvalidOffsetError as the claim states. -/
theorem C4_counterexample_offset_past_end_succeeds :
    BleCharacteristic.ReadValue ⟨["read"], [1, 2], false⟩ 5 = Except.ok []
  ∧ BleDescriptor.ReadValue ⟨["read"], [1, 2]⟩ 5 = Except.ok [] := by
  constructor <;> rfl

/-- C4 amended: for every characteristic or descriptor with `read` in its
flags and every offset, readValue(offset) returns `value[offset:]` -- which
is the empty byte string whenever `offset > len(value)`; no InvalidOffsetError
is ever raised. -/
theorem C4_read_returns_suffix_amended :
    (∀ (c : BleCharacteristic) (off : Nat), "read" ∈ c.flags →
        BleCharacteristic.ReadValue c off = Except.ok (c.value.drop off))
  ∧ (∀ (d : BleDescriptor) (off : Nat), "read" ∈ d.flags →
        BleDescriptor.ReadValue d off = Except.ok (d.value.drop off)) := by
  constructor
  · intro c off h; simp [BleCharacteristic.ReadValue, h]
  · intro d off h; simp [BleDescriptor.ReadValue, h]

/-- C4 witness: the amended statement at a concrete characteristic and
descriptor, with an in-range and an out-of-range offset. -/
theorem C4_read_returns_suffix_witness :
    BleCharacteristic.ReadValue ⟨["read", "write"], [10, 20, 30], false⟩ 1 =
      Except.ok [20, 30]
  ∧ BleDescriptor.ReadValue ⟨["read"], [10, 20, 30]⟩ 7 = Except.ok [] :=
  ⟨C4_read_returns_suffix_amended.1 ⟨["read", "write"], [10, 20, 30], false⟩ 1 (by decide),
   C4_read_returns_suffix_amended.2 ⟨["read"], [10, 20, 30]⟩ 7 (by decide)⟩

/-- C8: update_value returns true and stores `v` exactly when `v` differs
from the current value, and returns false leaving the value unchanged
otherwise; two consecutive calls with the same `v`, starting from a
different value, return true then false. -/
theorem C8_update_value_contract :
    ∀ (c : WifiStatusCharacteristic) (v : List Nat),
      ((WifiStatusCharacteristic.update_value c v).2 = true ↔ v ≠ c.value)
    ∧ (v ≠ c.value →
        WifiStatusCharacteristic.update_value c v = ({ c with value := v }, true))
    ∧ (v = c.value → WifiStatusCharacteristic.update_value c v = (c, false))
    ∧ (v ≠ c.value →
        (WifiStatusCharacteristic.update_value c v).2 = true
      ∧ (WifiStatusCharacteristic.update_value
          (WifiStatusCharacteristic.update_value c v).1 v).2 = false) := by
  intro c v
  by_cases h : v = c.value <;>
    simp [WifiStatusCharacteristic.update_value, h]

/-- C8 witness: updating the status value from "Idle"-bytes to new bytes
returns true, then repeating the same update returns false. -/
theorem C8_update_value_witness :
    (WifiStatusCharacteristic.update_value ⟨[73, 100, 108, 101], false⟩ [79, 75]).2 = true
  ∧ (WifiStatusCharacteristic.update_value
      (WifiStatusCharacteristic.update_value ⟨[73, 100, 108, 101], false⟩ [79, 75]).1
      [79, 75]).2 = false :=
  (C8_update_value_contract ⟨[73, 100, 108, 101], false⟩ [79, 75]).2.2.2 (by decide)

/-- C3 counterexample: in ble_svc.py's `BleCharacteristic.StartNotify`, a
first StartNotify on a characteristic with `notify` in its flags does set
`notifying` to true but emits zero `notifying`-property-changed events (that
variant only prints), refuting the claim that the transition "emits a
'notifying'-property-changed event" and fires exactly one event across a
double call. -/
theorem C3_counterexample_ble_svc_emits_no_event :
    BleCharacteristic.StartNotify ⟨["notify"], [], false⟩ =
      Except.ok (⟨["notify"], [], true⟩, ([] : List BleEvent)) := rfl

/-- C3 amended: StartNotify fails with NotSupportedError when `notify` is
not among the flags (this check exists in the ble_svc.py variant; the
ble_service.py `WifiStatusCharacteristic` hard-codes flags containing
`notify` and performs no check); in both variants a StartNotify when
already notifying is a no-op that emits nothing; on the actual transition
the ble_service.py variant sets `notifying` and emits exactly one
`notifying`-property-changed event -- so there startNotify(); startNotify()
leaves notifying true and fires exactly one such event -- while the
ble_svc.py variant sets `notifying` but emits no event at all. -/
theorem C3_start_notify_amended :
    (∀ c : BleCharacteristic, "notify" ∉ c.flags →
        BleCharacteristic.StartNotify c =
          Except.error ⟨"org.bluez.Error.NotSupported", "Notify not supported"⟩)
  ∧ (∀ c : BleCharacteristic, "notify" ∈ c.flags → c.notifying = true →
        BleCharacteristic.StartNotify c = Except.ok (c, []))
  ∧ (∀ c : BleCharacteristic, "notify" ∈ c.flags → c.notifying = false →
        BleCharacteristic.StartNotify c = Except.ok ({ c with notifying := true }, []))
  ∧ (∀ s : WifiStatusCharacteristic, s.notifying = true →
        WifiStatusCharacteristic.StartNotify s = (s, []))
  ∧ (∀ s : WifiStatusCharacteristic, s.notifying = false →
        WifiStatusCharacteristic.StartNotify s =
          ({ s with notifying := true }, [BleEvent.notifyingChanged true]))
  ∧ (∀ s : WifiStatusCharacteristic, s.notifying = false →
        (WifiStatusCharacteristic.StartNotify
            (WifiStatusCharacteristic.StartNotify s).1).1.notifying = true
      ∧ (WifiStatusCharacteristic.StartNotify s).2 ++
          (WifiStatusCharacteristic.StartNotify
            (WifiStatusCharacteristic.StartNotify s).1).2 =
          [BleEvent.notifyingChanged true]) := by
  refine ⟨?_, ?_, ?_, ?_, ?_, ?_⟩
  · intro c h; simp [BleCharacteristic.StartNotify, h]
  · intro c h hn; simp [BleCharacteristic.StartNotify, h, hn]
  · intro c h hn; simp [BleCharacteristic.StartNotify, h, hn]
  · intro s hn; simp [WifiStatusCharacteristic.StartNotify, hn]
  · intro s hn; simp [WifiStatusCharacteristic.StartNotify, hn]
  · intro s hn; simp [WifiStatusCharacteristic.StartNotify, hn]

/-- C3 witness: the amended statement at concrete characteristics -- the
NotSupported rejection, the ble_svc transition without an event, and the
double StartNotify on a status characteristic firing exactly one event. -/
theorem C3_start_notify_witness :
    BleCharacteristic.StartNotify ⟨["read"], [], false⟩ =
      Except.error ⟨"org.bluez.Error.NotSupported", "Notify not supported"⟩
  ∧ BleCharacteristic.StartNotify ⟨["read", "notify"], [], false⟩ =
      Except.ok (⟨["read", "notify"], [], true⟩, [])
  ∧ (WifiStatusCharacteristic.StartNotify
        (WifiStatusCharacteristic.StartNotify ⟨[73, 100, 108, 101], false⟩).1).1.notifying = true
  ∧ (WifiStatusCharacteristic.StartNotify ⟨[73, 100, 108, 101], false⟩).2 ++
      (WifiStatusCharacteristic.StartNotify
        (WifiStatusCharacteristic.StartNotify ⟨[73, 100, 108, 101], false⟩).1).2 =
      [BleEvent.notifyingChanged true] :=
  ⟨C3_start_notify_amended.1 ⟨["read"], [], false⟩ (by decide),
   C3_start_notify_amended.2.2.1 ⟨["read", "notify"], [], false⟩ (by decide) rfl,
   (C3_start_notify_amended.2.2.2.2.2 ⟨[73, 100, 108, 101], false⟩ rfl).1,
   (C3_start_notify_amended.2.2.2.2.2 ⟨[73, 100, 108, 101], false⟩ rfl).2⟩

/-- C5: writing a 40-byte SSID payload (forty copies of byte 65, 'A') with a
previously stored target SSID leaves `targetSsid` unchanged and fails -- but
the surfaced error is `org.bluez.Error.Failed` ("Failed to process SSID:
SSID too long (max 32 bytes)"), not the InvalidValueLengthError the code
itself raises: the method's own trailing `except Exception` clause catches
the deliberately raised DBusError and re-wraps it. -/
theorem C5_ssid_too_long_rejected_but_rewrapped :
    SetSsidCharacteristicImpl.WriteValue ⟨some [78, 101, 116], none⟩
        (List.replicate 40 65) =
      (⟨some [78, 101, 116], none⟩,
       some ⟨"org.bluez.Error.Failed",
             "Failed to process SSID: SSID too long (max 32 bytes)"⟩) := by
  rfl

/-- C6 counterexample: writing the non-UTF-8 payload [0xFF] to the command
characteristic with status "Idle" raises no transport-level fault, but also
schedules no command and leaves the global state -- in particular the status
characteristic's value -- completely unchanged: no error string is reported
in the status value, contrary to the claim. -/
theorem C6_counterexample_decode_failure_not_reported :
    WifiCommandCharacteristic.WriteValue ⟨[73, 100, 108, 101], [91, 93]⟩ [255] =
      (⟨[73, 100, 108, 101], [91, 93]⟩, Except.ok (), []) := rfl

/-- C6 amended: for every non-UTF-8 payload written to the command
characteristic, the decode failure is caught (and only logged): the write
itself raises no transport-level fault, but no error string is written to
the status characteristic's value -- no command is scheduled and the global
state is unchanged. -/
theorem C6_decode_failure_swallowed_amended :
    ∀ (st : GlobalState) (v : List Nat), utf8Decode v = none →
      WifiCommandCharacteristic.WriteValue st v = (st, Except.ok (), []) := by
  intro st v h
  simp [WifiCommandCharacteristic.WriteValue, h]

/-- C6 witness: the amended statement at the truncated two-byte-sequence
payload [0xC3]. -/
theorem C6_decode_failure_swallowed_witness :
    utf8Decode [195] = none
  ∧ WifiCommandCharacteristic.WriteValue ⟨[73, 100, 108, 101], [91, 93]⟩ [195] =
      (⟨[73, 100, 108, 101], [91, 93]⟩, Except.ok (), []) :=
  ⟨by decide,
   C6_decode_failure_swallowed_amended ⟨[73, 100, 108, 101], [91, 93]⟩ [195] (by decide)⟩

/-- C7: send_notification with notifying false returns false and emits no
event; with notifying true it emits one property-changed event carrying the
current value and returns true; a transport failure during the emission is
caught (nothing propagates -- the function returns normally with false and
no delivered event); on every path the characteristic's value and notifying
state are unchanged. -/
theorem C7_send_notification_contract :
    ∀ (c : WifiStatusCharacteristic) (transportOk : Bool),
      (WifiStatusCharacteristic.send_notification c transportOk).1 = c
    ∧ (c.notifying = false →
        WifiStatusCharacteristic.send_notification c transportOk = (c, false, []))
    ∧ (c.notifying = true → transportOk = true →
        WifiStatusCharacteristic.send_notification c transportOk =
          (c, true, [BleEvent.valueChanged c.value]))
    ∧ (c.notifying = true → transportOk = false →
        WifiStatusCharacteristic.send_notification c transportOk = (c, false, [])) := by
  intro c transportOk
  cases hn : c.notifying <;> cases ht : transportOk <;>
    simp [WifiStatusCharacteristic.send_notification, hn]

/-- C7 witness: a non-notifying characteristic returns false with no event;
a notifying one with a working transport emits its value; a notifying one
with a failing transport returns false with no event and unchanged state. -/
theorem C7_send_notification_witness :
    WifiStatusCharacteristic.send_notification ⟨[79, 75], false⟩ true =
      (⟨[79, 75], false⟩, false, [])
  ∧ WifiStatusCharacteristic.send_notification ⟨[79, 75], true⟩ true =
      (⟨[79, 75], true⟩, true, [BleEvent.valueChanged [79, 75]])
  ∧ WifiStatusCharacteristic.send_notification ⟨[79, 75], true⟩ false =
      (⟨[79, 75], true⟩, false, []) :=
  ⟨(C7_send_notification_contract ⟨[79, 75], false⟩ true).2.1 rfl,
   (C7_send_notification_contract ⟨[79, 75], true⟩ true).2.2.1 rfl rfl,
   (C7_send_notification_contract ⟨[79, 75], true⟩ false).2.2.2 rfl rfl⟩

/-- Helper: on a payload that decodes as UTF-8, the Set-SSID WriteValue is
fully characterized by the raw byte length of the payload. -/
theorem setSsid_writeValue_eq (svc : BleService) (v s : List Nat)
    (hd : utf8Decode v = some s) :
    SetSsidCharacteristicImpl.WriteValue svc v =
      if v.length > 32 then
        (svc, some ⟨"org.bluez.Error.Failed",
          "Failed to process SSID: SSID too long (max 32 bytes)"⟩)
      else ({ svc with targetSsid := some s }, none) := by
  simp only [SetSsidCharacteristicImpl.WriteValue, SetSsidCharacteristicImpl.writeBody, hd]
  by_cases h : v.length > 32 <;> simp [h]

/-- Helper: the PSK length guard of ble_svc.py line 459, as a Bool, holds
exactly when the payload is non-empty and the decoded PSK is neither 64 hex
characters nor 8..63 characters long. -/
theorem pskGuard_iff (v p : List Nat) :
    ((decide (v.length > 0) && !(p.length == 64 && p.all isHexCp) &&
      (decide (p.length < 8) || decide (p.length > 63))) = true) ↔
    ¬(v.length = 0 ∨ (p.length = 64 ∧ p.all isHexCp = true) ∨
      (8 ≤ p.length ∧ p.length ≤ 63)) := by
  cases hb : p.all isHexCp <;> simp [hb, beq_iff_eq] <;>
    simp only [← List.length_eq_zero] <;> omega

/-- Helper: Set-PSK WriteValue on a valid-length decoded PSK stores it and
logs only the header and the received-length line. -/
theorem setPsk_valid_eq (svc : BleService) (v p : List Nat)
    (hd : utf8Decode v = some p)
    (hc : v.length = 0 ∨ (p.length = 64 ∧ p.all isHexCp = true) ∨
          (8 ≤ p.length ∧ p.length ≤ 63)) :
    SetPskCharacteristicImpl.WriteValue svc v =
      (({ svc with targetPsk := some p }, none),
       [SetPskCharacteristicImpl.headerLine,
        SetPskCharacteristicImpl.receivedLine p.length]) := by
  simp only [SetPskCharacteristicImpl.WriteValue, SetPskCharacteristicImpl.writeBody, hd]
  rw [if_neg (fun hg => (pskGuard_iff v p).mp hg hc)]

/-- Helper: Set-PSK WriteValue on an invalid-length decoded PSK leaves the
service state unchanged and fails (re-wrapped by the catch-all as a Failed
error); its log mentions only the length. -/
theorem setPsk_invalid_eq (svc : BleService) (v p : List Nat)
    (hd : utf8Decode v = some p)
    (hc : ¬(v.length = 0 ∨ (p.length = 64 ∧ p.all isHexCp = true) ∨
          (8 ≤ p.length ∧ p.length ≤ 63))) :
    SetPskCharacteristicImpl.WriteValue svc v =
      ((svc, some ⟨"org.bluez.Error.Failed", "Failed to process PSK: Invalid PSK length"⟩),
       [SetPskCharacteristicImpl.headerLine,
        SetPskCharacteristicImpl.invalidLenLine p.length,
        "    Error processing PSK write: Invalid PSK length"]) := by
  simp only [SetPskCharacteristicImpl.WriteValue, SetPskCharacteristicImpl.writeBody, hd]
  rw [if_pos ((pskGuard_iff v p).mpr hc)]
  rfl

/-- C9: the PSK never appears in the Set-PSK write's log output -- the log
produced by any two accepted (valid) PSK payloads of the same decoded length
is identical, whatever the PSK bytes are -- and the PSK is never echoed back:
every read of the PSK characteristic fails with NotPermitted. -/
theorem C9_psk_never_logged_or_echoed :
    (∀ (svc1 svc2 : BleService) (v1 v2 p1 p2 : List Nat),
        utf8Decode v1 = some p1 → utf8Decode v2 = some p2 →
        (SetPskCharacteristicImpl.WriteValue svc1 v1).1.2 = none →
        (SetPskCharacteristicImpl.WriteValue svc2 v2).1.2 = none →
        p1.length = p2.length →
        (SetPskCharacteristicImpl.WriteValue svc1 v1).2 =
          (SetPskCharacteristicImpl.WriteValue svc2 v2).2)
  ∧ (∀ (svc : BleService) (off : Nat),
      SetPskCharacteristicImpl.ReadValue svc off =
        Except.error ⟨"org.bluez.Error.NotPermitted",
          "Read not permitted on write-only characteristic"⟩) := by
  constructor
  · intro svc1 svc2 v1 v2 p1 p2 hd1 hd2 hok1 hok2 hlen
    by_cases hc1 : (v1.length = 0 ∨ (p1.length = 64 ∧ p1.all isHexCp = true) ∨
        (8 ≤ p1.length ∧ p1.length ≤ 63))
    · by_cases hc2 : (v2.length = 0 ∨ (p2.length = 64 ∧ p2.all isHexCp = true) ∨
          (8 ≤ p2.length ∧ p2.length ≤ 63))
      · rw [setPsk_valid_eq svc1 v1 p1 hd1 hc1, setPsk_valid_eq svc2 v2 p2 hd2 hc2, hlen]
      · rw [setPsk_invalid_eq svc2 v2 p2 hd2 hc2] at hok2
        exact absurd hok2 (by simp)
    · rw [setPsk_invalid_eq svc1 v1 p1 hd1 hc1] at hok1
      exact absurd hok1 (by simp)
  · intro svc off
    rfl

/-- C9 witness: two different 8-character PSK payloads produce byte-for-byte
identical log output, and a concrete read of the PSK characteristic fails. -/
theorem C9_psk_never_logged_or_echoed_witness :
    (SetPskCharacteristicImpl.WriteValue ⟨none, none⟩
        [112, 97, 115, 115, 119, 111, 114, 100]).1.2 = none
  ∧ (SetPskCharacteristicImpl.WriteValue ⟨none, some [97]⟩
        [104, 117, 110, 116, 101, 114, 50, 50]).1.2 = none
  ∧ (SetPskCharacteristicImpl.WriteValue ⟨none, none⟩
        [112, 97, 115, 115, 119, 111, 114, 100]).2 =
      (SetPskCharacteristicImpl.WriteValue ⟨none, some [97]⟩
        [104, 117, 110, 116, 101, 114, 50, 50]).2
  ∧ SetPskCharacteristicImpl.ReadValue ⟨none, none⟩ 0 =
      Except.error ⟨"org.bluez.Error.NotPermitted",
        "Read not permitted on write-only characteristic"⟩ :=
  ⟨by decide, by decide,
   C9_psk_never_logged_or_echoed.1 ⟨none, none⟩ ⟨none, some [97]⟩
     [112, 97, 115, 115, 119, 111, 114, 100] [104, 117, 110, 116, 101, 114, 50, 50]
     [112, 97, 115, 115, 119, 111, 114, 100] [104, 117, 110, 116, 101, 114, 50, 50]
     (by decide) (by decide) (by decide) (by decide) (by decide),
   C9_psk_never_logged_or_echoed.2 ⟨none, none⟩ 0⟩

/-- C10: the Set-SSID length bound is enforced on the raw byte length of the
payload (acceptance iff at most 32 bytes, regardless of character count; a
valid-UTF-8 SSID of at most 32 characters whose encoding exceeds 32 bytes is
rejected with the service state unchanged), while the Set-PSK rule is
enforced on the decoded character count, with emptiness tested on the byte
length: acceptance iff the payload is empty, or the decoded PSK is 64 hex
characters, or 8..63 characters long. -/
theorem C10_byte_length_vs_char_count :
    (∀ (svc : BleService) (v s : List Nat), utf8Decode v = some s →
        ((SetSsidCharacteristicImpl.WriteValue svc v).2 = none ↔ v.length ≤ 32))
  ∧ (∀ (svc : BleService) (v s : List Nat), utf8Decode v = some s →
        s.length ≤ 32 → 32 < v.length →
        (SetSsidCharacteristicImpl.WriteValue svc v).1 = svc
      ∧ ∃ e, (SetSsidCharacteristicImpl.WriteValue svc v).2 = some e)
  ∧ (∀ (svc : BleService) (v p : List Nat), utf8Decode v = some p →
        ((SetPskCharacteristicImpl.WriteValue svc v).1.2 = none ↔
          (v.length = 0 ∨ (p.length = 64 ∧ p.all isHexCp = true) ∨
           (8 ≤ p.length ∧ p.length ≤ 63)))) := by
  refine ⟨?_, ?_, ?_⟩
  · intro svc v s hd
    rw [setSsid_writeValue_eq svc v s hd]
    by_cases h : v.length > 32 <;> simp [h] <;> omega
  · intro svc v s hd _hs hv
    rw [setSsid_writeValue_eq svc v s hd, if_pos hv]
    exact ⟨rfl, ⟨_, rfl⟩⟩
  · intro svc v p hd
    by_cases hc : (v.length = 0 ∨ (p.length = 64 ∧ p.all isHexCp = true) ∨
        (8 ≤ p.length ∧ p.length ≤ 63))
    · rw [setPsk_valid_eq svc v p hd hc]
      exact iff_of_true rfl hc
    · rw [setPsk_invalid_eq svc v p hd hc]
      exact iff_of_false (by simp) hc

/-- C10 witness: the 34-byte encoding of a 17-character SSID (seventeen
copies of U+00E9) is rejected leaving the service unchanged, and an
8-character PSK payload is accepted. -/
theorem C10_byte_length_vs_char_count_witness :
    (SetSsidCharacteristicImpl.WriteValue ⟨none, none⟩
        (List.flatten (List.replicate 17 [195, 169]))).1 = ⟨none, none⟩
  ∧ (∃ e, (SetSsidCharacteristicImpl.WriteValue ⟨none, none⟩
        (List.flatten (List.replicate 17 [195, 169]))).2 = some e)
  ∧ (SetPskCharacteristicImpl.WriteValue ⟨none, none⟩
        [112, 97, 115, 115, 119, 111, 114, 100]).1.2 = none :=
  ⟨(C10_byte_length_vs_char_count.2.1 ⟨none, none⟩
      (List.flatten (List.replicate 17 [195, 169])) (List.replicate 17 233)
      (by decide) (by decide) (by decide)).1,
   (C10_byte_length_vs_char_count.2.1 ⟨none, none⟩
      (List.flatten (List.replicate 17 [195, 169])) (List.replicate 17 233)
      (by decide) (by decide) (by decide)).2,
   (C10_byte_length_vs_char_count.2.2 ⟨none, none⟩
      [112, 97, 115, 115, 119, 111, 114, 100]
      [112, 97, 115, 115, 119, 111, 114, 100] (by decide)).mpr (by decide)⟩
